import Mathlib

/-!
# Verification of the atenea-hallo2 caching and orchestration core

Shallow embedding of the two core modules of the repository:

* `src/tts.ts` — OpenAI text-to-speech with a content-addressed artifact
  cache (`getTextHash`, `getOpenAIClient`, `generateSpeech`);
* `src/video-generator.ts` — subprocess orchestration for the Hallo2
  inference worker (`generateVideo`).

File-system state, the process environment and the remote TTS collaborator
are made explicit; platform primitives (the SHA-256 hex digest, the remote
synthesis call) are parameters of the definitions that use them, since the
claims under verification do not depend on their internals.
-/

namespace AteneaHallo2

/-- The contents of a binary buffer, as a list of byte values. -/
abbrev Bytes := List Nat

/-- In-memory model of the files visible on disk: an association list from
path to contents, most recent write first.  Directories are implicit (the Node call
`fs.mkdir` with `recursive: true` never fails and does not affect file
contents, so it is a no-op on this map). -/
abbrev FS := List (String × Bytes)

/-- Model of reading the file at path `p`: the most recently written
contents, or `none` when no file exists there. -/
def readFile (fs : FS) (p : String) : Option Bytes :=
  (fs.find? (fun e => e.1 == p)).map (·.2)

/-- Model of the Node primitive `fs.access`: does a file exist at path `p`?
(`tts.ts` line 37: existence check only, no content validation.) -/
def access (fs : FS) (p : String) : Bool :=
  (readFile fs p).isSome

/-- Model of the Node primitive `fs.writeFile`: (re)places the file at path `p` with
contents `b`. -/
def writeFile (fs : FS) (p : String) (b : Bytes) : FS :=
  (p, b) :: fs

/-- The characters strictly before the last `'/'` of a character list, or
`none` when the list has no `'/'`. -/
def beforeLastSlash : List Char → Option (List Char)
  | [] => none
  | c :: cs =>
    match beforeLastSlash cs with
    | some d => some (c :: d)
    | none => if c = '/' then some [] else none

/-- Model of the Node primitive `path.dirname` for forward-slash paths without trailing
slashes: everything before the last separator, or `"."` when there is no
separator. -/
def dirname (p : String) : String :=
  match beforeLastSlash p.data with
  | some d => String.mk d
  | none => "."

/-- Model of the Node primitive `path.join` on two segments. -/
def pathJoin (a b : String) : String :=
  if a = "." then b else a ++ "/" ++ b

/-! ## src/tts.ts -/

/-- `TTSOptions` (src/types.ts). -/
structure TTSOptions where
  text : String
  voice : String
  model : String
  outputPath : String

/-- The pre-digest string of `getTextHash` (tts.ts line 24):
`` `${text}|${voice}|${model}` ``. -/
def ttsPreDigest (text voice model : String) : String :=
  text ++ "|" ++ voice ++ "|" ++ model

/-- The first `n` characters of a string (the JavaScript call `substring(0, n)`). -/
def strTake (s : String) (n : Nat) : String :=
  String.mk (s.data.take n)

/-- `getTextHash` (tts.ts lines 23–26): SHA-256 hex digest of the pre-digest
string, truncated to its first 16 characters.  The digest primitive
`crypto.createHash` with sha256 is a platform primitive, taken here as the
explicit parameter `sha256hex : String → String`; every theorem about the
cache below holds for an arbitrary digest function. -/
def getTextHash (sha256hex : String → String) (text voice model : String) : String :=
  strTake (sha256hex (ttsPreDigest text voice model)) 16

/-- The mutable module state of `tts.ts`: the visible file system, the lazy
singleton `openaiClient` (line 7, holding the API key it was built with),
and the `OPENAI_API_KEY` process-environment variable. -/
structure TTSState where
  fs : FS
  openaiClient : Option String
  envOpenAIKey : Option String

/-- The error message thrown by `getOpenAIClient` when no credential is
configured (tts.ts lines 12–14). -/
def missingKeyMsg : String :=
  "OPENAI_API_KEY environment variable is required. Please add it to your .env file."

/-- `getOpenAIClient` (tts.ts lines 9–21): return the singleton client if
already constructed; otherwise fail when `OPENAI_API_KEY` is absent, and
construct the client from it when present. -/
def getOpenAIClient (st : TTSState) : Except String TTSState :=
  match st.openaiClient with
  | some _ => .ok st
  | none =>
    match st.envOpenAIKey with
    | none => .error missingKeyMsg
    | some key => .ok { st with openaiClient := some key }

/-- The outcome of one `generateSpeech` call: the returned artifact path, or
the message of the thrown error. -/
inductive TTSOutcome
  | ok (path : String)
  | err (msg : String)
deriving DecidableEq, Repr

/-- The full result of one `generateSpeech` call: its outcome, the module
state afterwards, and how many times the remote TTS collaborator was
invoked during the call. -/
structure GSResult where
  outcome : TTSOutcome
  state : TTSState
  remoteCalls : Nat

/-- The canonical cached-artifact file name for a fingerprint
(tts.ts line 34: `` `speech_${hash}.mp3` ``). -/
def cacheFileName (fp : String) : String :=
  "speech_" ++ fp ++ ".mp3"

/-- The cached-artifact path computed by `generateSpeech` (tts.ts
lines 32–34): `path.join(path.dirname(outputPath), "speech_<hash>.mp3")`. -/
def cachedPathOfCall (sha256hex : String → String) (opts : TTSOptions) : String :=
  pathJoin (dirname opts.outputPath)
    (cacheFileName (getTextHash sha256hex opts.text opts.voice opts.model))

/-- `generateSpeech` (tts.ts lines 28–70).  `remote` is the platform
primitive `openai.audio.speech.create` (model, voice, input ↦ audio bytes);
`generateSpeech` holds for an arbitrary collaborator.  On a cache hit the
cached path is returned with no client construction and no remote call; on
a miss the client is obtained (failing when no credential is configured,
the error wrapped as `TTS generation failed: …` by the catch block of
lines 66–71), the remote collaborator is invoked once, and the bytes are
written to the cached path. -/
def generateSpeech (sha256hex : String → String)
    (remote : String → String → String → Bytes)
    (opts : TTSOptions) (st : TTSState) : GSResult :=
  let cachedPath := cachedPathOfCall sha256hex opts
  if access st.fs cachedPath then
    { outcome := .ok cachedPath, state := st, remoteCalls := 0 }
  else
    match getOpenAIClient st with
    | .error e =>
      { outcome := .err ("TTS generation failed: " ++ e), state := st, remoteCalls := 0 }
    | .ok st' =>
      let buffer := remote opts.model opts.voice opts.text
      let fs' := writeFile st'.fs cachedPath buffer
      { outcome := .ok cachedPath, state := { st' with fs := fs' }, remoteCalls := 1 }

/-- The cache operation `store`,  as implemented by the miss path of
`generateSpeech` (tts.ts lines 59–61): write the bytes to the canonical
path under the artifact directory `dir`. -/
def store (fs : FS) (dir fp : String) (bytes : Bytes) : FS :=
  writeFile fs (pathJoin dir (cacheFileName fp)) bytes

/-- The cache operation `lookup`,  as implemented by the hit path of
`generateSpeech` (tts.ts lines 36–43): the canonical path when a file
exists there, else `none`. -/
def lookup (fs : FS) (dir fp : String) : Option String :=
  if access fs (pathJoin dir (cacheFileName fp)) then
    some (pathJoin dir (cacheFileName fp))
  else none

/-! ## src/video-generator.ts (src/unnamed/part_000) -/

/-- The `quality` field of `GenerateVideoParams` (src/types.ts line 16). -/
inductive Quality
  | balanced
  | high
  | ultra
deriving DecidableEq, Repr

/-- `GenerateVideoParams` (src/types.ts lines 8–17).  `fps` and `steps` are
optional numbers, defaulted inside `generateVideo`; `lipWeight` and
`cfgScale` are optional numbers that `generateVideo` never reads, so their
numeric representation is immaterial and `Nat` payloads suffice to exhibit
a populated field. -/
structure GenerateVideoParams where
  imagePath : String
  audioPath : String
  outputPath : String
  fps : Option Nat := none
  steps : Option Nat := none
  lipWeight : Option Nat := none
  cfgScale : Option Nat := none
  quality : Option Quality := none

/-- The argument vector `generateVideo` constructs for the worker process
(video-generator.ts lines 29–41), with the defaults `fps = 25`,
`steps = 40` applied by the destructuring on line 12. -/
def buildArgs (pythonScript : String) (p : GenerateVideoParams) : List String :=
  [pythonScript,
   "--image", p.imagePath,
   "--audio", p.audioPath,
   "--output", p.outputPath,
   "--fps", toString (p.fps.getD 25),
   "--steps", toString (p.steps.getD 40)]

/-- How the spawned worker process terminates, as observed by the two
handlers `generateVideo` installs: the `close` event with an exit code and
the accumulated stderr text, or the `error` event when the process could
not be started at all. -/
inductive ProcEvent
  | closed (code : Int) (stderrAcc : String)
  | spawnFailed (errMsg : String)

/-- How the promise returned by `generateVideo` settles: resolved with a
path, or rejected with an error message. -/
inductive JobResult
  | resolved (path : String)
  | rejected (msg : String)
deriving DecidableEq, Repr

/-- The rejection message for a nonzero exit code
(video-generator.ts lines 65–69). -/
def closeRejectMsg (code : Int) (stderr : String) : String :=
  "Video generation failed with code " ++ toString code ++ "\nStderr: " ++ stderr

/-- The rejection message for a spawn failure
(video-generator.ts lines 73–75). -/
def spawnRejectMsg (m : String) : String :=
  "Failed to spawn Python process: " ++ m

/-- The `close` handler of `generateVideo` (video-generator.ts lines 60–71):
resolve with the `outputPath` of the job on exit code 0, otherwise reject with
the exit code and accumulated stderr.  It consults nothing else — in
particular no file system — so the embedding takes no `FS` argument. -/
def onClose (outputPath : String) (code : Int) (stderr : String) : JobResult :=
  if code = 0 then .resolved outputPath else .rejected (closeRejectMsg code stderr)

/-- How the promise returned by `generateVideo` settles for each way the worker process
terminates (the `close` handler, lines 60–71, and the `error` handler,
lines 73–75). -/
def generateVideoResult (p : GenerateVideoParams) (ev : ProcEvent) : JobResult :=
  match ev with
  | .closed code stderr => onClose p.outputPath code stderr
  | .spawnFailed m => .rejected (spawnRejectMsg m)

/-! ## Filesystem-operation trace of the store path (for atomicity analysis) -/

/-- One filesystem operation, at the granularity relevant to write
atomicity. -/
inductive FsOp
  | mkdirRecursive (dir : String)
  | writeFileOp (path : String) (bytes : Bytes)
  | renameOp (src dst : String)
deriving DecidableEq, Repr

/-- Whether an operation is a rename. -/
def FsOp.isRename : FsOp → Bool
  | .renameOp _ _ => true
  | _ => false

/-- The exact sequence of filesystem operations the miss path of
`generateSpeech` performs to persist the artifact (tts.ts lines 57–61):
an idempotent recursive `mkdir` of the output directory, then a single
direct `fs.writeFile` to the canonical cached path. -/
def storeTrace (outputDir cachedPath : String) (bytes : Bytes) : List FsOp :=
  [.mkdirRecursive outputDir, .writeFileOp cachedPath bytes]

/-- Modelled platform primitive: the Node primitive `fs.writeFile` creates (or
truncates) the file at its final, visible path and then writes the buffer
front to back; it is not atomic.  `writeFileStates fs p bytes` lists the
file-system states visible to a concurrent reader while the write is in
progress: after `k` bytes have been written, the file at `p` holds the
first `k` bytes.  The last entry is the completed write. -/
def writeFileStates (fs : FS) (p : String) (bytes : Bytes) : List FS :=
  (List.range (bytes.length + 1)).map (fun k => writeFile fs p (bytes.take k))

/-! ## Test fixtures

Concrete instantiations of the two platform-primitive parameters, used by
closed witness and counterexample theorems.  Every universally quantified
theorem below holds for arbitrary instantiations. -/

/-- Stand-in digest function for closed instances: the identity map. -/
def idDigest : String → String := fun s => s

/-- Stand-in remote TTS collaborator for closed instances: always returns
the one-byte buffer `[0]`. -/
def constRemote : String → String → String → Bytes := fun _ _ _ => [0]

/-! ## Helper lemmas -/

/-- Writing a file makes it visible at its own path. -/
theorem access_writeFile_self (fs : FS) (p : String) (b : Bytes) :
    access (writeFile fs p b) p = true := by
  simp [access, readFile, writeFile]

/-- Two synthesis requests with the same text, voice and model and the same
destination directory resolve to the same cached-artifact path. -/
theorem cachedPathOfCall_congr (sha : String → String) (o1 o2 : TTSOptions)
    (ht : o2.text = o1.text) (hv : o2.voice = o1.voice) (hm : o2.model = o1.model)
    (hd : dirname o2.outputPath = dirname o1.outputPath) :
    cachedPathOfCall sha o2 = cachedPathOfCall sha o1 := by
  simp [cachedPathOfCall, getTextHash, ttsPreDigest, ht, hv, hm, hd]

/-- Splitting a list at an occurrence of `c` that is the last one (nothing
after it is `c`) is unambiguous: equal lists split equally. -/
theorem append_cons_cancel {α : Type} {c : α} :
    ∀ {a a' b b' : List α}, c ∉ b → c ∉ b' → a ++ c :: b = a' ++ c :: b' → a = a' ∧ b = b' := by
  intro a
  induction a with
  | nil =>
    intro a' b b' hb hb' h
    cases a' with
    | nil => simpa using h
    | cons x t =>
      simp only [List.nil_append, List.cons_append, List.cons.injEq] at h
      obtain ⟨hc, hbeq⟩ := h
      exact absurd (hbeq ▸ List.mem_append_right t (List.mem_cons_self c b')) hb
  | cons x t ih =>
    intro a' b b' hb hb' h
    cases a' with
    | nil =>
      simp only [List.nil_append, List.cons_append, List.cons.injEq] at h
      obtain ⟨hc, hbeq⟩ := h
      subst hc
      exact absurd (hbeq.symm ▸ List.mem_append_right t (List.mem_cons_self x b)) hb'
    | cons y t' =>
      simp only [List.cons_append, List.cons.injEq] at h
      obtain ⟨rfl, h2⟩ := h
      obtain ⟨h3, h4⟩ := ih hb hb' h2
      exact ⟨by rw [h3], h4⟩

/-- The rejection message of a spawn failure starts with the letter F. -/
theorem spawnRejectMsg_head (m : String) : (spawnRejectMsg m).data.head? = some 'F' := by
  simp only [spawnRejectMsg, String.data_append]
  rfl

/-- The rejection message of a nonzero exit starts with the letter V. -/
theorem closeRejectMsg_head (code : Int) (stderr : String) :
    (closeRejectMsg code stderr).data.head? = some 'V' := by
  simp only [closeRejectMsg, String.data_append]
  rfl

/-! ## Claims -/

/-- Claim C1: for every generation job whose worker process terminates with
exit code `c`: if `c = 0`, `generateVideo` resolves with exactly the
requested `outputPath` of the job — consulting no file system, hence
without verifying the existence or validity of the output file (the
embedding of the close handler takes no file-system argument at all); if
`c` is nonzero, it rejects with a diagnostic that carries the exit code and
the full accumulated standard-error text (exhibited by an explicit
decomposition of the message around them). -/
theorem C1_exit_outcome (p : GenerateVideoParams) (code : Int) (stderr : String) :
    (code = 0 → generateVideoResult p (.closed code stderr) = .resolved p.outputPath) ∧
    (code ≠ 0 → ∃ a b, generateVideoResult p (.closed code stderr)
        = .rejected (a ++ toString code ++ b ++ stderr)) := by
  constructor
  · intro h
    simp [generateVideoResult, onClose, h]
  · intro h
    refine ⟨"Video generation failed with code ", "\nStderr: ", ?_⟩
    simp [generateVideoResult, onClose, closeRejectMsg, h, String.append_assoc]

/-- Witness for C1: a worker exiting 0 resolves with the requested output
path, and a worker that writes ERR123 to stderr and exits 1 rejects with a
diagnostic carrying the text 1 and ERR123. -/
theorem C1_exit_outcome_witness :
    generateVideoResult
        { imagePath := "img.png", audioPath := "audio.mp3", outputPath := "out.mp4" }
        (.closed 0 "") = .resolved "out.mp4" ∧
    ∃ a b, generateVideoResult
        { imagePath := "img.png", audioPath := "audio.mp3", outputPath := "out.mp4" }
        (.closed 1 "ERR123") = .rejected (a ++ toString (1 : Int) ++ b ++ "ERR123") :=
  ⟨(C1_exit_outcome
      { imagePath := "img.png", audioPath := "audio.mp3", outputPath := "out.mp4" } 0 "").1 rfl,
   (C1_exit_outcome
      { imagePath := "img.png", audioPath := "audio.mp3", outputPath := "out.mp4" } 1 "ERR123").2
      (by decide)⟩

/-- Claim C2: after `store fp bytes` completes, `lookup fp` returns the
canonical location, and the contents of the file at that path equal `bytes`
byte for byte. -/
theorem C2_store_lookup_roundtrip (fs : FS) (dir fp : String) (bytes : Bytes) :
    lookup (store fs dir fp bytes) dir fp = some (pathJoin dir (cacheFileName fp)) ∧
    readFile (store fs dir fp bytes) (pathJoin dir (cacheFileName fp)) = some bytes := by
  simp [lookup, store, access, readFile, writeFile]

/-- Counterexample to claim C3 as stated: two sequential `generateSpeech`
calls with identical `(content, voice, model)` but destination hints in
different directories both miss the cache and invoke the remote TTS
collaborator, for a total of two remote calls, because the cache directory
is derived from the destination hint. -/
theorem C3_counterexample_two_remote_calls :
    ((generateSpeech idDigest constRemote ⟨"t", "v", "m", "a/out.mp3"⟩
        ⟨[], none, some "k"⟩).remoteCalls
      + (generateSpeech idDigest constRemote ⟨"t", "v", "m", "b/out.mp3"⟩
          (generateSpeech idDigest constRemote ⟨"t", "v", "m", "a/out.mp3"⟩
            ⟨[], none, some "k"⟩).state).remoteCalls) = 2 := by
  decide

/-- Claim C3 as amended: for two sequential `generateSpeech` calls with
identical `(content, voice, model)` whose destination hints lie in the same
directory, the remote TTS collaborator is invoked at most once across the
two calls, and the second call is pure — it makes no remote call, returns
the same outcome as the first, and leaves the module state untouched. -/
theorem C3_same_dir_at_most_one_remote_call (sha : String → String)
    (remote : String → String → String → Bytes)
    (o1 o2 : TTSOptions) (st : TTSState)
    (ht : o2.text = o1.text) (hv : o2.voice = o1.voice) (hm : o2.model = o1.model)
    (hd : dirname o2.outputPath = dirname o1.outputPath) :
    (generateSpeech sha remote o1 st).remoteCalls
      + (generateSpeech sha remote o2 (generateSpeech sha remote o1 st).state).remoteCalls ≤ 1 ∧
    (generateSpeech sha remote o2 (generateSpeech sha remote o1 st).state).remoteCalls = 0 ∧
    (generateSpeech sha remote o2 (generateSpeech sha remote o1 st).state).outcome
      = (generateSpeech sha remote o1 st).outcome ∧
    (generateSpeech sha remote o2 (generateSpeech sha remote o1 st).state).state
      = (generateSpeech sha remote o1 st).state := by
  have hcp := cachedPathOfCall_congr sha o1 o2 ht hv hm hd
  by_cases hacc : access st.fs (cachedPathOfCall sha o1) = true
  · simp [generateSpeech, hcp, hacc]
  · cases hcl : getOpenAIClient st with
    | error e => simp [generateSpeech, hcp, hacc, hcl]
    | ok st' => simp [generateSpeech, hcp, hacc, hcl, access_writeFile_self]

/-- Witness for the amended C3, at a concrete pair of identical requests
into the same directory. -/
theorem C3_same_dir_witness :
    (generateSpeech idDigest constRemote ⟨"t", "v", "m", "a/out.mp3"⟩
        ⟨[], none, some "k"⟩).remoteCalls
      + (generateSpeech idDigest constRemote ⟨"t", "v", "m", "a/next.mp3"⟩
          (generateSpeech idDigest constRemote ⟨"t", "v", "m", "a/out.mp3"⟩
            ⟨[], none, some "k"⟩).state).remoteCalls ≤ 1 ∧
    (generateSpeech idDigest constRemote ⟨"t", "v", "m", "a/next.mp3"⟩
        (generateSpeech idDigest constRemote ⟨"t", "v", "m", "a/out.mp3"⟩
          ⟨[], none, some "k"⟩).state).remoteCalls = 0 ∧
    (generateSpeech idDigest constRemote ⟨"t", "v", "m", "a/next.mp3"⟩
        (generateSpeech idDigest constRemote ⟨"t", "v", "m", "a/out.mp3"⟩
          ⟨[], none, some "k"⟩).state).outcome
      = (generateSpeech idDigest constRemote ⟨"t", "v", "m", "a/out.mp3"⟩
          ⟨[], none, some "k"⟩).outcome ∧
    (generateSpeech idDigest constRemote ⟨"t", "v", "m", "a/next.mp3"⟩
        (generateSpeech idDigest constRemote ⟨"t", "v", "m", "a/out.mp3"⟩
          ⟨[], none, some "k"⟩).state).state
      = (generateSpeech idDigest constRemote ⟨"t", "v", "m", "a/out.mp3"⟩
          ⟨[], none, some "k"⟩).state :=
  C3_same_dir_at_most_one_remote_call idDigest constRemote
    ⟨"t", "v", "m", "a/out.mp3"⟩ ⟨"t", "v", "m", "a/next.mp3"⟩
    ⟨[], none, some "k"⟩ rfl rfl rfl (by decide)

/-- Counterexample to claim C4 as stated: the separator of the pre-digest
string is the pipe character, which input content can contain, so two
distinct `(content, voice, model)` tuples can collide onto the same
pre-digest string with certainty. -/
theorem C4_counterexample_forged_separator :
    ttsPreDigest "a|b" "c" "m" = ttsPreDigest "a" "b|c" "m" ∧
    (("a|b", "c", "m") : String × String × String) ≠ ("a", "b|c", "m") := by
  decide

/-- Claim C4 as amended: provided the voice and model identifiers are free
of the pipe separator (as the enum-like identifiers the code passes are),
the pre-digest strings of two distinct tuples are distinct — equal
pre-digest strings force equal tuples, even for content that itself
contains the separator. -/
theorem C4_pre_digest_inj_of_sep_free (t v m t' v' m' : String)
    (hv : '|' ∉ v.data) (hm : '|' ∉ m.data) (hv' : '|' ∉ v'.data) (hm' : '|' ∉ m'.data)
    (h : ttsPreDigest t v m = ttsPreDigest t' v' m') :
    t = t' ∧ v = v' ∧ m = m' := by
  have hd : (t.data ++ '|' :: v.data) ++ '|' :: m.data
      = (t'.data ++ '|' :: v'.data) ++ '|' :: m'.data := by
    have h2 := congrArg String.data h
    simpa [ttsPreDigest, String.data_append] using h2
  obtain ⟨h1, h2⟩ := append_cons_cancel hm hm' hd
  obtain ⟨h3, h4⟩ := append_cons_cancel hv hv' h1
  exact ⟨String.ext h3, String.ext h4, String.ext h2⟩

/-- Witness for the amended C4, at concrete separator-free voice and model
identifiers and content containing the separator. -/
theorem C4_pre_digest_inj_witness :
    "x|y" = "x|y" ∧ "nova" = "nova" ∧ "tts-1" = "tts-1" :=
  C4_pre_digest_inj_of_sep_free "x|y" "nova" "tts-1" "x|y" "nova" "tts-1"
    (by decide) (by decide) (by decide) (by decide) rfl

/-- Counterexample to claim C5 as stated: two synthesis requests with
identical fingerprints (identical tuples) but destination hints in
different directories resolve to different cached-artifact paths — the
storage location is not derived solely from the fingerprint under a fixed
artifact directory. -/
theorem C5_counterexample_destination_dependent :
    getTextHash idDigest "t" "v" "m" = getTextHash idDigest "t" "v" "m" ∧
    cachedPathOfCall idDigest ⟨"t", "v", "m", "a/out.mp3"⟩
      ≠ cachedPathOfCall idDigest ⟨"t", "v", "m", "b/out.mp3"⟩ := by
  decide

/-- Claim C5 as amended: the cached-artifact location is derived from the
fingerprint and from the directory of the destination-hint path — two
requests with the same fingerprint resolve to the same canonical path
whenever their destination hints lie in the same directory. -/
theorem C5_path_from_fingerprint_and_dir (sha : String → String) (o1 o2 : TTSOptions)
    (hfp : getTextHash sha o1.text o1.voice o1.model
      = getTextHash sha o2.text o2.voice o2.model)
    (hd : dirname o1.outputPath = dirname o2.outputPath) :
    cachedPathOfCall sha o1 = cachedPathOfCall sha o2 := by
  simp [cachedPathOfCall, hfp, hd]

/-- Witness for the amended C5, at two concrete requests with equal
fingerprints and destination hints in the same directory. -/
theorem C5_path_witness :
    cachedPathOfCall idDigest ⟨"t", "v", "m", "a/out.mp3"⟩
      = cachedPathOfCall idDigest ⟨"t", "v", "m", "a/next.mp3"⟩ :=
  C5_path_from_fingerprint_and_dir idDigest
    ⟨"t", "v", "m", "a/out.mp3"⟩ ⟨"t", "v", "m", "a/next.mp3"⟩ rfl (by decide)

/-- Claim C6: with no client yet constructed and no credential configured
in the environment, a `generateSpeech` call that misses the cache fails
with the configuration error about the missing `OPENAI_API_KEY` credential
(wrapped in the stage-qualified message) and makes no remote call, while
the same call on a cache hit succeeds with the cached path, requiring no
credential — the credential check happens at first remote use, not at
process start. -/
theorem C6_lazy_credential_check (sha : String → String)
    (remote : String → String → String → Bytes) (opts : TTSOptions) (st : TTSState)
    (hclient : st.openaiClient = none) (henv : st.envOpenAIKey = none) :
    (access st.fs (cachedPathOfCall sha opts) = false →
      (generateSpeech sha remote opts st).outcome
        = .err ("TTS generation failed: " ++ missingKeyMsg) ∧
      (generateSpeech sha remote opts st).remoteCalls = 0) ∧
    (access st.fs (cachedPathOfCall sha opts) = true →
      (generateSpeech sha remote opts st).outcome = .ok (cachedPathOfCall sha opts) ∧
      (generateSpeech sha remote opts st).remoteCalls = 0) := by
  constructor <;> intro h <;> simp [generateSpeech, getOpenAIClient, hclient, henv, h]

/-- Witness for C6: with no credential, the concrete call misses an empty
cache and yields the configuration error, and the same call against a
file system already holding the cached artifact succeeds without one. -/
theorem C6_lazy_credential_witness :
    ((generateSpeech idDigest constRemote ⟨"t", "v", "m", "a/out.mp3"⟩
        ⟨[], none, none⟩).outcome
      = .err ("TTS generation failed: " ++ missingKeyMsg) ∧
     (generateSpeech idDigest constRemote ⟨"t", "v", "m", "a/out.mp3"⟩
        ⟨[], none, none⟩).remoteCalls = 0) ∧
    ((generateSpeech idDigest constRemote ⟨"t", "v", "m", "a/out.mp3"⟩
        ⟨[(cachedPathOfCall idDigest ⟨"t", "v", "m", "a/out.mp3"⟩, [0])], none, none⟩).outcome
      = .ok (cachedPathOfCall idDigest ⟨"t", "v", "m", "a/out.mp3"⟩) ∧
     (generateSpeech idDigest constRemote ⟨"t", "v", "m", "a/out.mp3"⟩
        ⟨[(cachedPathOfCall idDigest ⟨"t", "v", "m", "a/out.mp3"⟩, [0])], none, none⟩).remoteCalls
      = 0) :=
  ⟨(C6_lazy_credential_check idDigest constRemote ⟨"t", "v", "m", "a/out.mp3"⟩
      ⟨[], none, none⟩ rfl rfl).1 (by decide),
   (C6_lazy_credential_check idDigest constRemote ⟨"t", "v", "m", "a/out.mp3"⟩
      ⟨[(cachedPathOfCall idDigest ⟨"t", "v", "m", "a/out.mp3"⟩, [0])], none, none⟩ rfl rfl).2
      (by decide)⟩

/-- Claim C7: when the worker process cannot be started at all, the promise
settles as a rejection carrying the spawn-error diagnostic; this outcome is
distinct from every exit-code rejection (their messages can never coincide)
and is never a resolution — every spawn-failure event maps to exactly this
terminal outcome. -/
theorem C7_spawn_failure_distinct (p : GenerateVideoParams) (m : String) :
    generateVideoResult p (.spawnFailed m) = .rejected (spawnRejectMsg m) ∧
    (∀ code stderr, generateVideoResult p (.spawnFailed m)
      ≠ .rejected (closeRejectMsg code stderr)) ∧
    (∀ q, generateVideoResult p (.spawnFailed m) ≠ .resolved q) := by
  refine ⟨rfl, fun code stderr h => ?_, fun q h => by simp [generateVideoResult] at h⟩
  have h1 : spawnRejectMsg m = closeRejectMsg code stderr := by
    simpa [generateVideoResult] using h
  have h2 : (spawnRejectMsg m).data.head? = (closeRejectMsg code stderr).data.head? := by
    rw [h1]
  rw [spawnRejectMsg_head, closeRejectMsg_head] at h2
  simp at h2

/-- Witness for C7, at a concrete job with a nonexistent worker entry
point: the outcome is the spawn rejection and differs from the exit-code-1
rejection. -/
theorem C7_spawn_failure_witness :
    generateVideoResult
        { imagePath := "img.png", audioPath := "audio.mp3", outputPath := "out.mp4" }
        (.spawnFailed "ENOENT") = .rejected (spawnRejectMsg "ENOENT") ∧
    generateVideoResult
        { imagePath := "img.png", audioPath := "audio.mp3", outputPath := "out.mp4" }
        (.spawnFailed "ENOENT") ≠ .rejected (closeRejectMsg 1 "ERR123") :=
  ⟨(C7_spawn_failure_distinct
      { imagePath := "img.png", audioPath := "audio.mp3", outputPath := "out.mp4" } "ENOENT").1,
   (C7_spawn_failure_distinct
      { imagePath := "img.png", audioPath := "audio.mp3", outputPath := "out.mp4" } "ENOENT").2.1
      1 "ERR123"⟩

/-- Counterexample to claim C8 as stated: a job carrying both optional
tunables produces an argument vector containing neither a lip-weight flag
nor a cfg-scale flag. -/
theorem C8_counterexample_tunables_dropped :
    "--lip-weight" ∉ buildArgs "hallo2_inference.py"
      { imagePath := "img.png", audioPath := "audio.mp3", outputPath := "out.mp4",
        lipWeight := some 1, cfgScale := some 3 } ∧
    "--cfg-scale" ∉ buildArgs "hallo2_inference.py"
      { imagePath := "img.png", audioPath := "audio.mp3", outputPath := "out.mp4",
        lipWeight := some 1, cfgScale := some 3 } := by
  decide

/-- Claim C8 as amended: the argument vector is insensitive to the optional
tunables — `generateVideo` never reads `lipWeight`, `cfgScale` or
`quality`, so the worker is invoked with only the image, audio, output,
fps and steps arguments whatever tunables the job carries. -/
theorem C8_args_ignore_tunables (s : String) (p : GenerateVideoParams)
    (lw cs : Option Nat) (q : Option Quality) :
    buildArgs s { p with lipWeight := lw, cfgScale := cs, quality := q } = buildArgs s p :=
  rfl

/-- Counterexample to claim C9 as stated: the store path issues no rename
operation at all — it writes directly to the canonical path — and under the
non-atomic semantics of the write primitive a concurrent lookup can observe
the visible file holding a strict truncated prefix of the stored bytes. -/
theorem C9_counterexample_truncated_read :
    (∀ op ∈ storeTrace "a" (pathJoin "a" (cacheFileName "h")) [7, 8], op.isRename = false) ∧
    ∃ fsMid ∈ writeFileStates [] (pathJoin "a" (cacheFileName "h")) [7, 8],
      lookup fsMid "a" "h" = some (pathJoin "a" (cacheFileName "h")) ∧
      readFile fsMid (pathJoin "a" (cacheFileName "h")) = some (List.take 1 [7, 8]) ∧
      (List.take 1 [7, 8] : Bytes) ≠ [7, 8] := by
  decide

/-- Claim C9 as amended: the store path performs an idempotent directory
creation followed by a single direct write to the canonical path, with no
rename step; consequently, for every number `k` of bytes already written, a
concurrent reader at that moment finds a visible file at the canonical path
holding exactly the first `k` bytes. -/
theorem C9_direct_write_exposes_midstates (fs : FS) (dir fp : String) (bytes : Bytes)
    (k : Nat) (hk : k ≤ bytes.length) :
    (∀ op ∈ storeTrace dir (pathJoin dir (cacheFileName fp)) bytes, op.isRename = false) ∧
    writeFile fs (pathJoin dir (cacheFileName fp)) (bytes.take k)
      ∈ writeFileStates fs (pathJoin dir (cacheFileName fp)) bytes ∧
    lookup (writeFile fs (pathJoin dir (cacheFileName fp)) (bytes.take k)) dir fp
      = some (pathJoin dir (cacheFileName fp)) ∧
    readFile (writeFile fs (pathJoin dir (cacheFileName fp)) (bytes.take k))
      (pathJoin dir (cacheFileName fp)) = some (bytes.take k) := by
  refine ⟨?_, ?_, ?_, ?_⟩
  · intro op hop
    simp [storeTrace] at hop
    rcases hop with h | h <;> subst h <;> rfl
  · simp only [writeFileStates, List.mem_map, List.mem_range]
    exact ⟨k, by omega, rfl⟩
  · simp [lookup, access, readFile, writeFile]
  · simp [readFile, writeFile]

/-- Witness for the amended C9, mid-write after one of two bytes. -/
theorem C9_direct_write_witness :
    (∀ op ∈ storeTrace "a" (pathJoin "a" (cacheFileName "h")) [7, 8], op.isRename = false) ∧
    writeFile [] (pathJoin "a" (cacheFileName "h")) (List.take 1 [7, 8])
      ∈ writeFileStates [] (pathJoin "a" (cacheFileName "h")) [7, 8] ∧
    lookup (writeFile [] (pathJoin "a" (cacheFileName "h")) (List.take 1 [7, 8])) "a" "h"
      = some (pathJoin "a" (cacheFileName "h")) ∧
    readFile (writeFile [] (pathJoin "a" (cacheFileName "h")) (List.take 1 [7, 8]))
      (pathJoin "a" (cacheFileName "h")) = some (List.take 1 [7, 8]) :=
  C9_direct_write_exposes_midstates [] "a" "h" [7, 8] 1 (by decide)

/-- Claim C10: at the public `generateVideo` interface the frame rate and
diffusion steps are optional; a job omitting `fps` invokes the worker with
the fps flag followed by 25, and a job omitting `steps` invokes it with the
steps flag followed by 40. -/
theorem C10_default_fps_steps (s : String) (p : GenerateVideoParams) :
    (p.fps = none → ∃ l1 l2, buildArgs s p = l1 ++ ["--fps", "25"] ++ l2) ∧
    (p.steps = none → ∃ l1 l2, buildArgs s p = l1 ++ ["--steps", "40"] ++ l2) := by
  constructor
  · intro h
    refine ⟨[s, "--image", p.imagePath, "--audio", p.audioPath, "--output", p.outputPath],
      ["--steps", toString (p.steps.getD 40)], ?_⟩
    have h25 : toString (25 : Nat) = "25" := rfl
    simp [buildArgs, h, h25]
  · intro h
    refine ⟨[s, "--image", p.imagePath, "--audio", p.audioPath, "--output", p.outputPath,
      "--fps", toString (p.fps.getD 25)], [], ?_⟩
    have h40 : toString (40 : Nat) = "40" := rfl
    simp [buildArgs, h, h40]

/-- Witness for C10, at a concrete job omitting both tunables. -/
theorem C10_default_fps_steps_witness :
    (∃ l1 l2, buildArgs "hallo2_inference.py"
      { imagePath := "img.png", audioPath := "audio.mp3", outputPath := "out.mp4" }
        = l1 ++ ["--fps", "25"] ++ l2) ∧
    (∃ l1 l2, buildArgs "hallo2_inference.py"
      { imagePath := "img.png", audioPath := "audio.mp3", outputPath := "out.mp4" }
        = l1 ++ ["--steps", "40"] ++ l2) :=
  ⟨(C10_default_fps_steps "hallo2_inference.py"
      { imagePath := "img.png", audioPath := "audio.mp3", outputPath := "out.mp4" }).1 rfl,
   (C10_default_fps_steps "hallo2_inference.py"
      { imagePath := "img.png", audioPath := "audio.mp3", outputPath := "out.mp4" }).2 rfl⟩

end AteneaHallo2
